import Mathlib

/-!
Verification development for the village-connect backend.

The backend is an Express + Mongoose REST service.  We embed its data
model (Mongoose schemas) and its route handlers as pure Lean functions.
Document ids (Mongo ObjectIds) are modelled as `Nat`; enum-typed string
fields (`role`, `status`, `category`, `priority`) are modelled as the
same string literals the JavaScript code compares against; the database
collections are modelled as lists of documents; a route handler that can
fail becomes a function into `Except ApiError _`, where an error result
means the handler returned early and wrote nothing (no state change).
Timestamps are modelled as `Nat` values passed in by the caller
(standing for `new Date()`).
-/

namespace VillageConnect

/-- A user document (`models/User`).  Only the fields the routes read are
kept: `_id` and `role` (the `auth` middleware attaches the whole user to
`req.user`; handlers only ever consult `req.user._id` and
`req.user.role`). -/
structure User where
  id : Nat
  role : String
deriving DecidableEq, Repr

/-- A problem document (`models/Problem` schema). -/
structure Problem where
  id : Nat
  title : String
  description : String
  category : String
  location : String
  isVerified : Bool
  priority : String
  status : String
  reportedBy : Nat
  images : List String
  upvotes : List Nat
  solutions : List Nat
  assignedTo : Option Nat
  resolvedAt : Option Nat
  completionMessage : String
  isCompletedByVillager : Bool
deriving DecidableEq, Repr

/-- An embedded comment on a solution (`models/Solution` `comments` subdocument). -/
structure SolutionComment where
  user : Nat
  text : String
  createdAt : Nat
deriving DecidableEq, Repr

/-- A solution document (`models/Solution` schema). -/
structure Solution where
  id : Nat
  problem : Nat
  title : String
  description : String
  proposedBy : Nat
  status : String
  upvotes : List Nat
  comments : List SolutionComment
  implementedAt : Option Nat
deriving DecidableEq, Repr

/-- An embedded comment on a forum post, with its own upvote list
(`models/ForumPost` `comments` subdocument; the schema file is not in the
tree but the forum routes read `comment.upvotes`, and the spec documents
the field). -/
structure ForumComment where
  id : Nat
  user : Nat
  text : String
  upvotes : List Nat
deriving DecidableEq, Repr

/-- A forum post document (`models/ForumPost`). -/
structure ForumPost where
  id : Nat
  title : String
  content : String
  category : String
  author : Nat
  isPinned : Bool
  upvotes : List Nat
  comments : List ForumComment
deriving DecidableEq, Repr

/-- The error taxonomy of the handlers: each constructor corresponds to an
early `res.status(...)` return (400 validation, 403 authorization,
404 not found); `server` is the generic catch-all 500 produced by a
`try`/`catch` around a thrown runtime error. -/
inductive ApiError where
  | validation : String → ApiError
  | authz : String → ApiError
  | notFound : String → ApiError
  | server : ApiError
deriving DecidableEq, Repr

/-- The mutable persistent state relevant to the problem/solution claims:
the `problems` and `solutions` collections. -/
structure DB where
  problems : List Problem
  solutions : List Solution
deriving DecidableEq, Repr

/-- `Model.findById`: first document whose `_id` matches. -/
def findProblem (db : DB) (pid : Nat) : Option Problem :=
  db.problems.find? (fun p => p.id == pid)

/-- `Solution.findById`. -/
def findSolution (db : DB) (sid : Nat) : Option Solution :=
  db.solutions.find? (fun s => s.id == sid)

/-- The upvote-toggle body shared verbatim by
`POST /api/problems/:id/upvote`, `POST /api/solutions/:id/upvote`,
`POST /api/forum/:id/upvote` and
`POST /api/forum/:id/comments/:commentId/upvote`:

    const upvoteIndex = doc.upvotes.indexOf(req.user._id);
    if (upvoteIndex > -1) doc.upvotes.splice(upvoteIndex, 1);
    else doc.upvotes.push(req.user._id);

`indexOf`/`splice(i,1)` removes the first occurrence; `push` appends. -/
def toggleUpvote (uid : Nat) (upvotes : List Nat) : List Nat :=
  if uid ∈ upvotes then upvotes.erase uid else upvotes ++ [uid]

/-- `POST /api/problems/:id/upvote` (routes/problems.js 149-170), acting on
the problem the handler found. -/
def upvoteProblem (uid : Nat) (p : Problem) : Problem :=
  { p with upvotes := toggleUpvote uid p.upvotes }

/-- `POST /api/solutions/:id/upvote` (routes/solutions.js 125-146). -/
def upvoteSolution (uid : Nat) (s : Solution) : Solution :=
  { s with upvotes := toggleUpvote uid s.upvotes }

/-- `POST /api/forum/:id/upvote` (routes/forum.js 238-259). -/
def upvoteForumPost (uid : Nat) (post : ForumPost) : ForumPost :=
  { post with upvotes := toggleUpvote uid post.upvotes }

/-- The per-comment effect of
`POST /api/forum/:id/comments/:commentId/upvote`
(routes/forum.js 298-326): `post.comments.id(commentId)` selects the
subdocument by id and the shared toggle runs on that comment's own
upvote list; all other comments are untouched. -/
def toggleCommentUpvote (uid cid : Nat) (c : ForumComment) : ForumComment :=
  if c.id == cid then { c with upvotes := toggleUpvote uid c.upvotes } else c

/-- The full handler of
`POST /api/forum/:id/comments/:commentId/upvote`: locate the comment
(404 when absent), then toggle the caller in that comment's upvote list
(`toggleCommentUpvote` leaves every other comment unchanged). -/
def upvoteForumComment (uid cid : Nat) (post : ForumPost) :
    Except ApiError ForumPost :=
  match post.comments.find? (fun c => c.id == cid) with
  | none => Except.error (ApiError.notFound "Comment not found")
  | some _ => Except.ok
      { post with comments := post.comments.map (toggleCommentUpvote uid cid) }

/-- Whether the (optional) authenticated caller is a volunteer
(`req.user && req.user.role === 'volunteer'`). -/
def isVolunteer (ouser : Option User) : Bool :=
  match ouser with
  | some u => u.role == "volunteer"
  | none => false

/-- The Mongo filter built by `GET /api/problems`
(routes/problems.js 31-45): the `status`/`category`/`priority` query
parameters become equality constraints when present, and when the caller
is a volunteer the handler additionally sets `filter.isVerified = true`. -/
def problemListFilter (ouser : Option User)
    (statusQ categoryQ priorityQ : Option String) (p : Problem) : Bool :=
  statusQ.all (fun s => p.status == s) &&
  categoryQ.all (fun c => p.category == c) &&
  priorityQ.all (fun pr => p.priority == pr) &&
  (!isVolunteer ouser || p.isVerified)

/-- `GET /api/problems` (routes/problems.js 31-58):
`Problem.find(filter).sort(sort).limit(limit)`.  The sort key only
reorders the matching documents, so it is modelled by an arbitrary
reordering function `sortFn`; theorems about the route constrain `sortFn`
to return only elements of its input. -/
def getProblems (ouser : Option User)
    (statusQ categoryQ priorityQ : Option String)
    (sortFn : List Problem → List Problem) (limit : Nat)
    (problems : List Problem) : List Problem :=
  (sortFn (problems.filter
    (problemListFilter ouser statusQ categoryQ priorityQ))).take limit

/-- `GET /api/problems/:id` (routes/problems.js 63-87): 404 when the id
resolves to no document, 403 when a volunteer requests an unverified
problem, otherwise the problem is returned. -/
def getProblemById (ouser : Option User) (db : DB) (pid : Nat) :
    Except ApiError Problem :=
  match findProblem db pid with
  | none => Except.error (ApiError.notFound "Problem not found")
  | some p =>
      if isVolunteer ouser && !p.isVerified then
        Except.error (ApiError.authz "This problem is not yet verified")
      else Except.ok p

/-- A `PUT /api/problems/:id` request body.  The handler merges the parsed
JSON body into the document with `Object.assign(problem, req.body)`, so
every schema field can appear; a `some` value is a field present in the
body and a `none` is an absent one. -/
structure ProblemUpdateBody where
  title : Option String := none
  description : Option String := none
  category : Option String := none
  location : Option String := none
  isVerified : Option Bool := none
  priority : Option String := none
  status : Option String := none
  reportedBy : Option Nat := none
  images : Option (List String) := none
  upvotes : Option (List Nat) := none
  solutions : Option (List Nat) := none
  assignedTo : Option (Option Nat) := none
  resolvedAt : Option (Option Nat) := none
  completionMessage : Option String := none
  isCompletedByVillager : Option Bool := none
deriving Repr

/-- `Object.assign(problem, req.body)`: fields present in the body
overwrite the document's fields, absent fields are kept. -/
def assignBody (p : Problem) (b : ProblemUpdateBody) : Problem :=
  { p with
    title := b.title.getD p.title
    description := b.description.getD p.description
    category := b.category.getD p.category
    location := b.location.getD p.location
    isVerified := b.isVerified.getD p.isVerified
    priority := b.priority.getD p.priority
    status := b.status.getD p.status
    reportedBy := b.reportedBy.getD p.reportedBy
    images := b.images.getD p.images
    upvotes := b.upvotes.getD p.upvotes
    solutions := b.solutions.getD p.solutions
    assignedTo := b.assignedTo.getD p.assignedTo
    resolvedAt := b.resolvedAt.getD p.resolvedAt
    completionMessage := b.completionMessage.getD p.completionMessage
    isCompletedByVillager :=
      b.isCompletedByVillager.getD p.isCompletedByVillager }

/-- `PUT /api/problems/:id` (routes/problems.js 122-144), acting on the
problem the handler found: 403 unless the caller is the reporter or an
admin, otherwise the body is merged into the document and saved. -/
def updateProblem (caller : User) (b : ProblemUpdateBody) (p : Problem) :
    Except ApiError Problem :=
  if p.reportedBy ≠ caller.id ∧ caller.role ≠ "admin" then
    Except.error (ApiError.authz "Not authorized")
  else Except.ok (assignBody p b)

/-- `PUT /api/problems/:id/complete` (routes/problems.js 244-275): only
villagers may call it; the handler then evaluates
`problem.assignedTo.toString()`.  When `assignedTo` is unset that
expression throws a `TypeError`, which the surrounding `try`/`catch`
turns into a generic 500 — modelled by `ApiError.server`.  When
`assignedTo` is a different user the handler returns 403; when it is the
caller the completion fields are written (`completionMessage || ''`
defaults the message) and the status is forced to `resolved` with
`resolvedAt = new Date()` (the `now` argument). -/
def markComplete (caller : User) (now : Nat) (msg : Option String)
    (p : Problem) : Except ApiError Problem :=
  if caller.role ≠ "villager" then
    Except.error (ApiError.authz "Only villagers can complete problems")
  else
    match p.assignedTo with
    | none => Except.error ApiError.server
    | some a =>
        if a ≠ caller.id then
          Except.error (ApiError.authz "This problem is not assigned to you")
        else Except.ok
          { p with
            isCompletedByVillager := true
            completionMessage := msg.getD ""
            status := "resolved"
            resolvedAt := some now }

/-- `PUT /api/problems/:id/verify-completion` (routes/problems.js 280-303),
acting on the problem the handler found (admin-only route): 400 unless
`isCompletedByVillager` is already true, otherwise `isVerified` is set
and the status (re)set to `resolved`. -/
def verifyCompletion (p : Problem) : Except ApiError Problem :=
  if !p.isCompletedByVillager then
    Except.error
      (ApiError.validation "Problem has not been completed by villager yet")
  else Except.ok { p with isVerified := true, status := "resolved" }

/-- `PUT /api/admin/problems/:id/assign` (routes/admin.js 501-527), acting
on the problem the handler found: the target user is looked up, and
unless they exist and their role is exactly `villager` the handler
returns 400; on success `assignedTo` is set and the status forced to
`in-progress`. -/
def assignProblem (users : List User) (target : Nat) (p : Problem) :
    Except ApiError Problem :=
  match users.find? (fun u => u.id == target) with
  | none => Except.error (ApiError.validation "Can only assign to villagers")
  | some u =>
      if u.role ≠ "villager" then
        Except.error (ApiError.validation "Can only assign to villagers")
      else Except.ok { p with assignedTo := some target, status := "in-progress" }

/-- `POST /api/solutions` (routes/solutions.js 56-92): 404 when the
referenced problem does not exist (and nothing is created); otherwise a
new solution document is saved (with `proposedBy` = caller and the
schema defaults) and its id pushed onto the parent problem's `solutions`
list.  `newId` stands for the fresh ObjectId Mongoose generates. -/
def createSolution (caller : User) (newId pid : Nat)
    (title description : String) (db : DB) :
    Except ApiError (DB × Solution) :=
  match findProblem db pid with
  | none => Except.error (ApiError.notFound "Problem not found")
  | some _ =>
      let sol : Solution :=
        { id := newId, problem := pid, title := title
          description := description, proposedBy := caller.id
          status := "pending", upvotes := [], comments := []
          implementedAt := none }
      Except.ok
        ({ problems := db.problems.map (fun p =>
             if p.id == pid then { p with solutions := p.solutions ++ [newId] }
             else p)
           solutions := db.solutions ++ [sol] }, sol)

/-- `DELETE /api/solutions/:id` (routes/solutions.js 211-236): 404 when
the solution does not exist, 403 unless the caller is the proposer or an
admin; otherwise `$pull` removes the solution's id from the parent
problem's `solutions` list and the solution document is deleted. -/
def deleteSolution (caller : User) (sid : Nat) (db : DB) :
    Except ApiError DB :=
  match findSolution db sid with
  | none => Except.error (ApiError.notFound "Solution not found")
  | some sol =>
      if sol.proposedBy ≠ caller.id ∧ caller.role ≠ "admin" then
        Except.error (ApiError.authz "Not authorized")
      else Except.ok
        { problems := db.problems.map (fun p =>
            if p.id == sol.problem then
              { p with solutions := p.solutions.filter (fun x => !(x == sid)) }
            else p)
          solutions := db.solutions.filter (fun s => !(s.id == sid)) }

/-- `DELETE /api/problems/:id` (routes/problems.js 308-325, admin-only):
404 when the problem does not exist; otherwise
`Solution.deleteMany({ problem: problem._id })` removes every solution
referencing it and the problem document itself is deleted. -/
def deleteProblem (pid : Nat) (db : DB) : Except ApiError DB :=
  match findProblem db pid with
  | none => Except.error (ApiError.notFound "Problem not found")
  | some _ => Except.ok
      { problems := db.problems.filter (fun p => !(p.id == pid))
        solutions := db.solutions.filter (fun s => !(s.problem == pid)) }

/-- The count fields of the `GET /api/admin/stats` response
(routes/admin.js 343-389).  The group-by aggregations and the two
"recent" document lists of the same response are not modelled. -/
structure Stats where
  totalUsers : Nat
  totalProblems : Nat
  totalSolutions : Nat
  totalForumPosts : Nat
  solvedProblems : Nat
  unsolvedProblems : Nat
deriving DecidableEq, Repr

/-- `GET /api/admin/stats`: `countDocuments()` on each collection,
`countDocuments({status: 'resolved'})` for `solvedProblems` and
`countDocuments({status: {$ne: 'resolved'}})` for `unsolvedProblems`. -/
def getStats (users : List User) (db : DB) (posts : List ForumPost) : Stats :=
  { totalUsers := users.length
    totalProblems := db.problems.length
    totalSolutions := db.solutions.length
    totalForumPosts := posts.length
    solvedProblems := (db.problems.filter (fun p => p.status == "resolved")).length
    unsolvedProblems :=
      (db.problems.filter (fun p => !(p.status == "resolved"))).length }

/-! ### Toggle-upvote lemmas -/

theorem toggleUpvote_nodup (u : Nat) (l : List Nat) (h : l.Nodup) :
    (toggleUpvote u l).Nodup := by
  unfold toggleUpvote
  by_cases hm : u ∈ l
  · simpa [hm] using h.erase u
  · simp only [hm, if_neg, ite_false]
    exact (List.perm_append_singleton u l).symm.nodup
      (List.nodup_cons.mpr ⟨hm, h⟩)

theorem toggleUpvote_count_le_one (u : Nat) (l : List Nat) (h : l.Nodup) :
    (toggleUpvote u l).count u ≤ 1 :=
  List.nodup_iff_count_le_one.mp (toggleUpvote_nodup u l h) u

theorem toggleUpvote_toggleUpvote_perm (u : Nat) (l : List Nat)
    (h : l.Nodup) : (toggleUpvote u (toggleUpvote u l)).Perm l := by
  by_cases hm : u ∈ l
  · have h1 : toggleUpvote u l = l.erase u := by simp [toggleUpvote, hm]
    have h2 : u ∉ l.erase u := h.not_mem_erase
    have h3 : toggleUpvote u (l.erase u) = l.erase u ++ [u] := by
      simp [toggleUpvote, h2]
    rw [h1, h3]
    exact (List.perm_append_singleton u (l.erase u)).trans
      (List.perm_cons_erase hm).symm
  · have h1 : toggleUpvote u l = l ++ [u] := by simp [toggleUpvote, hm]
    have h2 : u ∈ l ++ [u] := by simp
    have h3 : toggleUpvote u (l ++ [u]) = (l ++ [u]).erase u := by
      simp [toggleUpvote, h2]
    have h4 : (l ++ [u]).erase u = l := by
      rw [List.erase_append_right _ hm, List.erase_cons_head, List.append_nil]
    rw [h1, h3, h4]

theorem toggleCommentUpvote_id (u cid : Nat) (c : ForumComment) :
    (toggleCommentUpvote u cid c).id = c.id := by
  unfold toggleCommentUpvote
  by_cases hc : (c.id == cid) = true <;> simp [hc]

theorem toggleCommentUpvote_twice_perm (u cid : Nat) (c : ForumComment)
    (h : c.upvotes.Nodup) :
    (toggleCommentUpvote u cid (toggleCommentUpvote u cid c)).upvotes.Perm
      c.upvotes := by
  by_cases hc : (c.id == cid) = true
  · simp only [toggleCommentUpvote, hc, if_true]
    exact toggleUpvote_toggleUpvote_perm u c.upvotes h
  · simp [toggleCommentUpvote, hc]

theorem toggleCommentUpvote_map_twice_perm (u cid : Nat)
    (cs : List ForumComment) (h : ∀ c ∈ cs, c.upvotes.Nodup) :
    List.Forall₂ (fun c c2 => c2.upvotes.Perm c.upvotes) cs
      ((cs.map (toggleCommentUpvote u cid)).map (toggleCommentUpvote u cid)) := by
  induction cs with
  | nil => simp
  | cons c cs ih =>
      simp only [List.map_cons]
      exact List.Forall₂.cons
        (toggleCommentUpvote_twice_perm u cid c (h c (by simp)))
        (ih (fun x hx => h x (by simp [hx])))

/-- Claim C1: for every entity carrying an upvote toggle set (Problem,
Solution, ForumPost, and a ForumPost comment) and every authenticated
identity `u`, toggling the upvote twice in succession by `u` restores the
upvote set to its original value (here proved as a permutation, hence
equality as a set), and a single toggle never produces a duplicate of `u`
in the set.  The hypotheses are the representation invariant that upvote
lists hold no duplicates, which every list satisfies initially (schema
default `[]`) and which the toggle preserves (`toggleUpvote_nodup`). -/
theorem upvote_toggle_roundtrip (u cid : Nat) (p : Problem) (s : Solution)
    (f : ForumPost)
    (hp : p.upvotes.Nodup) (hs : s.upvotes.Nodup) (hf : f.upvotes.Nodup)
    (hc : ∀ c ∈ f.comments, c.upvotes.Nodup) :
    ((upvoteProblem u (upvoteProblem u p)).upvotes.Perm p.upvotes ∧
      (upvoteProblem u p).upvotes.count u ≤ 1) ∧
    ((upvoteSolution u (upvoteSolution u s)).upvotes.Perm s.upvotes ∧
      (upvoteSolution u s).upvotes.count u ≤ 1) ∧
    ((upvoteForumPost u (upvoteForumPost u f)).upvotes.Perm f.upvotes ∧
      (upvoteForumPost u f).upvotes.count u ≤ 1) ∧
    (∀ f1, upvoteForumComment u cid f = Except.ok f1 →
      (∀ c1 ∈ f1.comments, c1.upvotes.count u ≤ 1) ∧
      ∃ f2, upvoteForumComment u cid f1 = Except.ok f2 ∧
        List.Forall₂ (fun c c2 => c2.upvotes.Perm c.upvotes)
          f.comments f2.comments) := by
  refine ⟨⟨toggleUpvote_toggleUpvote_perm u p.upvotes hp,
            toggleUpvote_count_le_one u p.upvotes hp⟩,
          ⟨toggleUpvote_toggleUpvote_perm u s.upvotes hs,
            toggleUpvote_count_le_one u s.upvotes hs⟩,
          ⟨toggleUpvote_toggleUpvote_perm u f.upvotes hf,
            toggleUpvote_count_le_one u f.upvotes hf⟩, ?_⟩
  intro f1 h1
  cases hfind : f.comments.find? (fun c => c.id == cid) with
  | none => simp [upvoteForumComment, hfind] at h1
  | some c0 =>
      simp only [upvoteForumComment, hfind] at h1
      cases h1
      constructor
      · intro c1 hc1
        rcases List.mem_map.mp hc1 with ⟨c, hcmem, rfl⟩
        by_cases hcc : (c.id == cid) = true
        · simp only [toggleCommentUpvote, hcc, if_true]
          exact toggleUpvote_count_le_one u c.upvotes (hc c hcmem)
        · simp only [toggleCommentUpvote, hcc, if_false]
          exact List.nodup_iff_count_le_one.mp (hc c hcmem) u
      · have hpred0 := List.find?_some hfind
        have hpred : (c0.id == cid) = true := hpred0
        have hmem0 : c0 ∈ f.comments := List.mem_of_find?_eq_some hfind
        have hmem1 : toggleCommentUpvote u cid c0 ∈
            f.comments.map (toggleCommentUpvote u cid) :=
          List.mem_map_of_mem (toggleCommentUpvote u cid) hmem0
        have hpred1 : ((toggleCommentUpvote u cid c0).id == cid) = true := by
          rw [toggleCommentUpvote_id]; exact hpred
        have hsome : ((f.comments.map (toggleCommentUpvote u cid)).find?
            (fun c => c.id == cid)).isSome :=
          List.find?_isSome.mpr ⟨toggleCommentUpvote u cid c0, hmem1, hpred1⟩
        rcases Option.isSome_iff_exists.mp hsome with ⟨c1, hfind1⟩
        refine ⟨{ f with comments := ((f.comments.map (toggleCommentUpvote u cid)).map (toggleCommentUpvote u cid)) }, ?_, ?_⟩
        · simp only [upvoteForumComment, hfind1]
        · exact toggleCommentUpvote_map_twice_perm u cid f.comments hc

/-- A concrete problem document used to witness the theorems. -/
def sampleProblem : Problem :=
  { id := 1, title := "Broken pump", description := "The pump is broken"
    category := "water", location := "well road", isVerified := false
    priority := "medium", status := "open", reportedBy := 2, images := []
    upvotes := [9, 3], solutions := [], assignedTo := none
    resolvedAt := none, completionMessage := ""
    isCompletedByVillager := false }

/-- A concrete solution document used to witness the theorems. -/
def sampleSolution : Solution :=
  { id := 4, problem := 1, title := "Replace the valve"
    description := "Order a new valve", proposedBy := 3, status := "pending"
    upvotes := [], comments := [], implementedAt := none }

/-- A concrete forum post used to witness the theorems. -/
def sampleForumPost : ForumPost :=
  { id := 6, title := "Village meeting", content := "Next week"
    category := "general", author := 2, isPinned := false, upvotes := [4]
    comments := [{ id := 11, user := 2, text := "I will come", upvotes := [9] }] }

/-- Witness for claim C1 at identity 9, comment id 11, and the sample
documents. -/
theorem upvote_toggle_roundtrip_witness :
    sampleProblem.upvotes.Nodup ∧ sampleSolution.upvotes.Nodup ∧
    sampleForumPost.upvotes.Nodup ∧
    (∀ c ∈ sampleForumPost.comments, c.upvotes.Nodup) ∧
    (((upvoteProblem 9 (upvoteProblem 9 sampleProblem)).upvotes.Perm
        sampleProblem.upvotes ∧
      (upvoteProblem 9 sampleProblem).upvotes.count 9 ≤ 1) ∧
     ((upvoteSolution 9 (upvoteSolution 9 sampleSolution)).upvotes.Perm
        sampleSolution.upvotes ∧
      (upvoteSolution 9 sampleSolution).upvotes.count 9 ≤ 1) ∧
     ((upvoteForumPost 9 (upvoteForumPost 9 sampleForumPost)).upvotes.Perm
        sampleForumPost.upvotes ∧
      (upvoteForumPost 9 sampleForumPost).upvotes.count 9 ≤ 1) ∧
     (∀ f1, upvoteForumComment 9 11 sampleForumPost = Except.ok f1 →
       (∀ c1 ∈ f1.comments, c1.upvotes.count 9 ≤ 1) ∧
       ∃ f2, upvoteForumComment 9 11 f1 = Except.ok f2 ∧
         List.Forall₂ (fun c c2 => c2.upvotes.Perm c.upvotes)
           sampleForumPost.comments f2.comments)) :=
  ⟨by decide, by decide, by decide, by decide,
   upvote_toggle_roundtrip 9 11 sampleProblem sampleSolution sampleForumPost
     (by decide) (by decide) (by decide) (by decide)⟩

/-- Claim C2: a volunteer listing problems only ever observes problems
with `isVerified = true` (the handler forces `filter.isVerified = true`
for volunteers before querying, and sorting/limiting only reorders and
truncates the matching documents); fetching an unverified problem as a
volunteer fails with the 403 authorization error; an admin or villager
identity, or an anonymous caller, gets unverified problems back from
get-by-id. -/
theorem volunteer_visibility (vol : User) (hvol : vol.role = "volunteer")
    (ouser : Option User)
    (honv : ∀ u, ouser = some u → u.role = "admin" ∨ u.role = "villager")
    (statusQ categoryQ priorityQ : Option String)
    (sortFn : List Problem → List Problem)
    (hsort : ∀ l x, x ∈ sortFn l → x ∈ l)
    (limit : Nat) (problems : List Problem) (db : DB) (pid : Nat) :
    (∀ p ∈ getProblems (some vol) statusQ categoryQ priorityQ sortFn limit
        problems, p.isVerified = true) ∧
    (∀ p, findProblem db pid = some p → p.isVerified = false →
      getProblemById (some vol) db pid =
        Except.error (ApiError.authz "This problem is not yet verified")) ∧
    (∀ p, findProblem db pid = some p →
      getProblemById ouser db pid = Except.ok p) := by
  refine ⟨?_, ?_, ?_⟩
  · intro p hp
    have h1 : p ∈ sortFn (problems.filter
        (problemListFilter (some vol) statusQ categoryQ priorityQ)) :=
      List.mem_of_mem_take hp
    have h2 : p ∈ problems.filter
        (problemListFilter (some vol) statusQ categoryQ priorityQ) :=
      hsort _ p h1
    have h3 := (List.mem_filter.mp h2).2
    simp [problemListFilter, isVolunteer, hvol] at h3
    exact h3.2
  · intro p hfind hver
    simp [getProblemById, hfind, isVolunteer, hvol, hver]
  · intro p hfind
    cases houser : ouser with
    | none => simp [getProblemById, hfind, isVolunteer]
    | some u =>
        rcases honv u houser with hu | hu <;>
          simp [getProblemById, hfind, isVolunteer, hu]

/-- A concrete volunteer identity. -/
def sampleVolunteer : User := { id := 5, role := "volunteer" }

/-- A concrete villager identity. -/
def sampleVillager : User := { id := 6, role := "villager" }

/-- A concrete admin identity. -/
def sampleAdmin : User := { id := 7, role := "admin" }

/-- A concrete store holding the sample problem (unverified) and the
sample solution. -/
def sampleDB : DB := { problems := [sampleProblem], solutions := [sampleSolution] }

/-- Witness for claim C2: the volunteer filter at the sample store, with
the identity sort order and the default limit of 50. -/
theorem volunteer_visibility_witness :
    sampleVolunteer.role = "volunteer" ∧
    (∀ u, (some sampleVillager : Option User) = some u →
      u.role = "admin" ∨ u.role = "villager") ∧
    (∀ l : List Problem, ∀ x, x ∈ (fun l : List Problem => l) l → x ∈ l) ∧
    ((∀ p ∈ getProblems (some sampleVolunteer) none none none
        (fun l => l) 50 [sampleProblem], p.isVerified = true) ∧
     (∀ p, findProblem sampleDB 1 = some p → p.isVerified = false →
       getProblemById (some sampleVolunteer) sampleDB 1 =
         Except.error (ApiError.authz "This problem is not yet verified")) ∧
     (∀ p, findProblem sampleDB 1 = some p →
       getProblemById (some sampleVillager) sampleDB 1 = Except.ok p)) :=
  ⟨rfl, fun _ h => by cases h; exact Or.inr rfl, fun _ _ h => h,
   volunteer_visibility sampleVolunteer rfl (some sampleVillager)
     (fun _ h => by cases h; exact Or.inr rfl) none none none (fun l => l)
     (fun _ _ h => h) 50 [sampleProblem] sampleDB 1⟩

/-- Claim C3: `verify-completion` on a problem with
`isCompletedByVillager = false` fails with the 400 validation error (and,
the handler returning early, writes nothing); on a problem with
`isCompletedByVillager = true` it succeeds, sets `isVerified = true` and
sets the status to `resolved`. -/
theorem verify_completion_behavior (p : Problem) :
    (p.isCompletedByVillager = false →
      verifyCompletion p = Except.error
        (ApiError.validation "Problem has not been completed by villager yet")) ∧
    (p.isCompletedByVillager = true →
      verifyCompletion p =
        Except.ok { p with isVerified := true, status := "resolved" }) := by
  constructor <;> intro h <;> simp [verifyCompletion, h]

/-- A concrete problem whose assigned villager has reported completion. -/
def sampleCompletedProblem : Problem :=
  { sampleProblem with
    assignedTo := some 6, status := "resolved"
    isCompletedByVillager := true, completionMessage := "fixed" }

/-- Witness for claim C3 at the sample problems: the uncompleted one is
rejected, the completed one is verified and resolved. -/
theorem verify_completion_witness :
    (sampleProblem.isCompletedByVillager = false ∧
     verifyCompletion sampleProblem = Except.error
       (ApiError.validation "Problem has not been completed by villager yet")) ∧
    (sampleCompletedProblem.isCompletedByVillager = true ∧
     verifyCompletion sampleCompletedProblem = Except.ok
       { sampleCompletedProblem with isVerified := true, status := "resolved" }) :=
  ⟨⟨rfl, (verify_completion_behavior sampleProblem).1 rfl⟩,
   ⟨rfl, (verify_completion_behavior sampleCompletedProblem).2 rfl⟩⟩

/-- Claim C4: `mark-complete` called by a villager who is not the
assigned villager fails with the 403 authorization error (writing
nothing); called by the assigned villager it sets
`isCompletedByVillager`, stores the completion message (defaulting to the
empty string), and forces the status to `resolved` with `resolvedAt`
stamped.  `p.assignedTo = some a` presupposes the problem has an
assignee; the unassigned case is claim C10. -/
theorem mark_complete_behavior (caller : User)
    (hrole : caller.role = "villager") (now : Nat) (msg : Option String)
    (p : Problem) :
    (∀ a, p.assignedTo = some a → a ≠ caller.id →
      markComplete caller now msg p =
        Except.error (ApiError.authz "This problem is not assigned to you")) ∧
    (p.assignedTo = some caller.id →
      markComplete caller now msg p = Except.ok
        { p with isCompletedByVillager := true
                 completionMessage := msg.getD ""
                 status := "resolved", resolvedAt := some now }) := by
  constructor
  · intro a ha hne
    simp [markComplete, hrole, ha, hne]
  · intro ha
    simp [markComplete, hrole, ha]

/-- A concrete problem assigned to the sample villager (id 6). -/
def assignedProblem : Problem :=
  { sampleProblem with assignedTo := some 6, status := "in-progress" }

/-- A concrete problem assigned to a different villager (id 8). -/
def otherAssignedProblem : Problem :=
  { sampleProblem with assignedTo := some 8, status := "in-progress" }

/-- Witness for claim C4 at the sample villager and the two assigned
problems. -/
theorem mark_complete_witness :
    sampleVillager.role = "villager" ∧
    otherAssignedProblem.assignedTo = some 8 ∧ (8 : Nat) ≠ sampleVillager.id ∧
    markComplete sampleVillager 100 (some "done") otherAssignedProblem =
      Except.error (ApiError.authz "This problem is not assigned to you") ∧
    assignedProblem.assignedTo = some sampleVillager.id ∧
    markComplete sampleVillager 100 (some "done") assignedProblem =
      Except.ok { assignedProblem with
                  isCompletedByVillager := true, completionMessage := "done"
                  status := "resolved", resolvedAt := some 100 } :=
  ⟨rfl, rfl, by decide,
   (mark_complete_behavior sampleVillager rfl 100 (some "done")
     otherAssignedProblem).1 8 rfl (by decide),
   rfl,
   (mark_complete_behavior sampleVillager rfl 100 (some "done")
     assignedProblem).2 rfl⟩

/-- Claim C10: `mark-complete` on a problem whose `assignedTo` is unset,
called by any villager, returns the generic 500 server error rather than
a 403 — `problem.assignedTo.toString()` dereferences the missing field,
the thrown TypeError lands in the catch-all, and nothing is saved. -/
theorem mark_complete_unassigned_server_error (caller : User)
    (hrole : caller.role = "villager") (now : Nat) (msg : Option String)
    (p : Problem) (hassign : p.assignedTo = none) :
    markComplete caller now msg p = Except.error ApiError.server := by
  simp [markComplete, hrole, hassign]

/-- Witness for claim C10: the sample problem has no assignee. -/
theorem mark_complete_unassigned_witness :
    sampleVillager.role = "villager" ∧ sampleProblem.assignedTo = none ∧
    markComplete sampleVillager 100 none sampleProblem =
      Except.error ApiError.server :=
  ⟨rfl, rfl,
   mark_complete_unassigned_server_error sampleVillager rfl 100 none
     sampleProblem rfl⟩

/-- Claim C5: the admin assign operation fails with the 400 validation
error when the target user does not exist or has a role other than
`villager` (writing nothing); when the target's role is exactly
`villager` it sets `assignedTo` to that user and forces the status to
`in-progress`. -/
theorem assign_problem_behavior (users : List User) (target : Nat)
    (p : Problem) :
    (users.find? (fun u => u.id == target) = none →
      assignProblem users target p =
        Except.error (ApiError.validation "Can only assign to villagers")) ∧
    (∀ u, users.find? (fun v => v.id == target) = some u →
      u.role ≠ "villager" →
      assignProblem users target p =
        Except.error (ApiError.validation "Can only assign to villagers")) ∧
    (∀ u, users.find? (fun v => v.id == target) = some u →
      u.role = "villager" →
      assignProblem users target p =
        Except.ok { p with assignedTo := some target, status := "in-progress" }) := by
  refine ⟨?_, ?_, ?_⟩
  · intro h
    simp [assignProblem, h]
  · intro u hu hrole
    simp [assignProblem, hu, hrole]
  · intro u hu hrole
    simp [assignProblem, hu, hrole]

/-- Witness for claim C5 over the three sample identities: an absent
target id (99) and a volunteer target (id 5) are rejected, the villager
target (id 6) is assigned with the status forced to `in-progress`. -/
theorem assign_problem_witness :
    ([sampleVillager, sampleVolunteer, sampleAdmin].find?
        (fun u => u.id == 99) = none ∧
      assignProblem [sampleVillager, sampleVolunteer, sampleAdmin] 99
          sampleProblem =
        Except.error (ApiError.validation "Can only assign to villagers")) ∧
    ([sampleVillager, sampleVolunteer, sampleAdmin].find?
        (fun v => v.id == 5) = some sampleVolunteer ∧
      sampleVolunteer.role ≠ "villager" ∧
      assignProblem [sampleVillager, sampleVolunteer, sampleAdmin] 5
          sampleProblem =
        Except.error (ApiError.validation "Can only assign to villagers")) ∧
    ([sampleVillager, sampleVolunteer, sampleAdmin].find?
        (fun v => v.id == 6) = some sampleVillager ∧
      sampleVillager.role = "villager" ∧
      assignProblem [sampleVillager, sampleVolunteer, sampleAdmin] 6
          sampleProblem =
        Except.ok { sampleProblem with
                    assignedTo := some 6
                    status := "in-progress" }) :=
  ⟨⟨by decide,
    (assign_problem_behavior [sampleVillager, sampleVolunteer, sampleAdmin]
      99 sampleProblem).1 (by decide)⟩,
   ⟨by decide, by decide,
    (assign_problem_behavior [sampleVillager, sampleVolunteer, sampleAdmin]
      5 sampleProblem).2.1 sampleVolunteer (by decide) (by decide)⟩,
   ⟨by decide, rfl,
    (assign_problem_behavior [sampleVillager, sampleVolunteer, sampleAdmin]
      6 sampleProblem).2.2 sampleVillager (by decide) rfl⟩⟩

/-! ### Problem–solution link lemmas -/

theorem filter_ne_append_fresh (newId : Nat) (l : List Nat) (h : newId ∉ l) :
    (l ++ [newId]).filter (fun x => !(x == newId)) = l := by
  rw [List.filter_append]
  have h1 : l.filter (fun x => !(x == newId)) = l :=
    List.filter_eq_self.mpr (fun a ha => by
      have : a ≠ newId := fun he => h (he ▸ ha)
      simp [this])
  simp [h1]

theorem map_push_pull (pid newId : Nat) (l : List Problem)
    (h : ∀ p ∈ l, newId ∉ p.solutions) :
    ((l.map (fun p => if p.id == pid then { p with solutions := p.solutions ++ [newId] } else p)).map (fun p => if p.id == pid then { p with solutions := p.solutions.filter (fun x => !(x == newId)) } else p)) = l := by
  induction l with
  | nil => rfl
  | cons p l ih =>
      simp only [List.map_cons, List.cons.injEq]
      refine ⟨?_, ih (fun q hq => h q (List.mem_cons_of_mem p hq))⟩
      by_cases hc : (p.id == pid) = true
      · simp only [hc, if_true]
        rw [filter_ne_append_fresh newId p.solutions (h p (List.mem_cons_self p l))]
      · simp only [hc, if_false]
        simp [hc]

theorem find?_solutions_append (newId : Nat) (sol : Solution)
    (hsol : sol.id = newId) (l : List Solution) (h : ∀ s ∈ l, s.id ≠ newId) :
    (l ++ [sol]).find? (fun s => s.id == newId) = some sol := by
  rw [List.find?_append]
  have h1 : l.find? (fun s => s.id == newId) = none :=
    List.find?_eq_none.mpr (fun s hs => by simp [h s hs])
  simp [h1, List.find?, hsol]

theorem filter_solutions_append (newId : Nat) (sol : Solution)
    (hsol : sol.id = newId) (l : List Solution) (h : ∀ s ∈ l, s.id ≠ newId) :
    (l ++ [sol]).filter (fun s => !(s.id == newId)) = l := by
  rw [List.filter_append]
  have h1 : l.filter (fun s => !(s.id == newId)) = l :=
    List.filter_eq_self.mpr (fun s hs => by simp [h s hs])
  simp [h1, hsol]

/-- Claim C6: creating a solution for an existing problem appends the
fresh solution id to the parent's `solutions` list so that it occurs
exactly once; deleting that solution removes exactly that id again (the
round trip restores the store exactly); creating a solution for a
non-existent problem fails with 404 and creates nothing.  The freshness
hypotheses state that `newId` is a newly generated ObjectId, unused in
the store. -/
theorem solution_link_roundtrip (db : DB) (caller : User)
    (pid newId : Nat) (stitle sdesc : String)
    (hfreshP : ∀ p ∈ db.problems, newId ∉ p.solutions)
    (hfreshS : ∀ s ∈ db.solutions, s.id ≠ newId) :
    (findProblem db pid = none →
      createSolution caller newId pid stitle sdesc db =
        Except.error (ApiError.notFound "Problem not found")) ∧
    (∀ P, findProblem db pid = some P →
      ∃ db2 sol, createSolution caller newId pid stitle sdesc db =
          Except.ok (db2, sol) ∧
        sol.id = newId ∧ sol.problem = pid ∧ sol.proposedBy = caller.id ∧
        (∀ q ∈ db2.problems, q.id = pid → q.solutions.count newId = 1) ∧
        (∀ q ∈ db2.problems, q.id ≠ pid → q ∈ db.problems) ∧
        deleteSolution caller newId db2 = Except.ok db) := by
  constructor
  · intro h
    simp [createSolution, h]
  · intro P hP
    refine ⟨{ problems := db.problems.map (fun p => if p.id == pid then { p with solutions := p.solutions ++ [newId] } else p), solutions := db.solutions ++ [{ id := newId, problem := pid, title := stitle, description := sdesc, proposedBy := caller.id, status := "pending", upvotes := [], comments := [], implementedAt := none }] }, { id := newId, problem := pid, title := stitle, description := sdesc, proposedBy := caller.id, status := "pending", upvotes := [], comments := [], implementedAt := none }, ?_, rfl, rfl, rfl, ?_, ?_, ?_⟩
    · simp [createSolution, hP]
    · intro q hq hqid
      rcases List.mem_map.mp hq with ⟨p, hpmem, rfl⟩
      by_cases hc : (p.id == pid) = true
      · simp only [hc, if_true]
        rw [List.count_append, List.count_eq_zero.mpr (hfreshP p hpmem)]
        simp
      · simp only [hc, if_false] at hqid
        exact absurd hqid (by simpa using hc)
    · intro q hq hqne
      rcases List.mem_map.mp hq with ⟨p, hpmem, rfl⟩
      by_cases hc : (p.id == pid) = true
      · simp only [hc, if_true] at hqne
        exact absurd (by simpa using hc) hqne
      · simp only [hc, if_false]
        exact hpmem
    · have hfind2 : ((db.solutions ++ [{ id := newId, problem := pid, title := stitle, description := sdesc, proposedBy := caller.id, status := "pending", upvotes := [], comments := [], implementedAt := none : Solution }]).find? (fun s => s.id == newId)) = some { id := newId, problem := pid, title := stitle, description := sdesc, proposedBy := caller.id, status := "pending", upvotes := [], comments := [], implementedAt := none } :=
        find?_solutions_append newId _ rfl db.solutions hfreshS
      simp only [deleteSolution, findSolution, hfind2]
      rw [if_neg (by simp)]
      have h1 : (db.problems.map (fun p => if p.id == pid then { p with solutions := p.solutions ++ [newId] } else p)).map (fun p => if p.id == pid then { p with solutions := p.solutions.filter (fun x => !(x == newId)) } else p) = db.problems :=
        map_push_pull pid newId db.problems hfreshP
      have h2 : ((db.solutions ++ [{ id := newId, problem := pid, title := stitle, description := sdesc, proposedBy := caller.id, status := "pending", upvotes := [], comments := [], implementedAt := none : Solution }]).filter (fun s => !(s.id == newId))) = db.solutions :=
        filter_solutions_append newId _ rfl db.solutions hfreshS
      congr 1
      rw [h1, h2]

/-- A store with one problem and no solutions yet, for the link round
trip. -/
def linkDB : DB := { problems := [sampleProblem], solutions := [] }

/-- Witness for claim C6: creating solution 42 on problem 1 of `linkDB`
and deleting it again restores the store; the fresh-id hypotheses hold
concretely. -/
theorem solution_link_roundtrip_witness :
    (∀ p ∈ linkDB.problems, 42 ∉ p.solutions) ∧
    (∀ s ∈ linkDB.solutions, s.id ≠ 42) ∧
    findProblem linkDB 1 = some sampleProblem ∧
    ((findProblem linkDB 1 = none →
       createSolution sampleVillager 42 1 "t" "d" linkDB =
         Except.error (ApiError.notFound "Problem not found")) ∧
     (∀ P, findProblem linkDB 1 = some P →
       ∃ db2 sol, createSolution sampleVillager 42 1 "t" "d" linkDB =
           Except.ok (db2, sol) ∧
         sol.id = 42 ∧ sol.problem = 1 ∧ sol.proposedBy = sampleVillager.id ∧
         (∀ q ∈ db2.problems, q.id = 1 → q.solutions.count 42 = 1) ∧
         (∀ q ∈ db2.problems, q.id ≠ 1 → q ∈ linkDB.problems) ∧
         deleteSolution sampleVillager 42 db2 = Except.ok linkDB)) :=
  ⟨by decide, by decide, rfl,
   solution_link_roundtrip linkDB sampleVillager 1 42 "t" "d"
     (by decide) (by decide)⟩

/-- Claim C7: the admin delete-problem operation removes the problem and
every solution whose `problem` field references it; afterwards no stored
solution references the deleted problem, nothing new appears, and every
unrelated document survives. -/
theorem delete_problem_cascade (db : DB) (pid : Nat) :
    (findProblem db pid = none →
      deleteProblem pid db =
        Except.error (ApiError.notFound "Problem not found")) ∧
    (∀ P, findProblem db pid = some P →
      ∃ db2, deleteProblem pid db = Except.ok db2 ∧
        (∀ q ∈ db2.problems, q.id ≠ pid) ∧
        (∀ s ∈ db2.solutions, s.problem ≠ pid) ∧
        (∀ q ∈ db2.problems, q ∈ db.problems) ∧
        (∀ s ∈ db2.solutions, s ∈ db.solutions) ∧
        (∀ q ∈ db.problems, q.id ≠ pid → q ∈ db2.problems) ∧
        (∀ s ∈ db.solutions, s.problem ≠ pid → s ∈ db2.solutions)) := by
  constructor
  · intro h
    simp [deleteProblem, h]
  · intro P hP
    refine ⟨{ problems := db.problems.filter (fun p => !(p.id == pid)), solutions := db.solutions.filter (fun s => !(s.problem == pid)) }, ?_, ?_, ?_, ?_, ?_, ?_, ?_⟩
    · simp [deleteProblem, hP]
    · intro q hq
      have := (List.mem_filter.mp hq).2
      simpa using this
    · intro s hs
      have := (List.mem_filter.mp hs).2
      simpa using this
    · intro q hq
      exact (List.mem_filter.mp hq).1
    · intro s hs
      exact (List.mem_filter.mp hs).1
    · intro q hq hqne
      exact List.mem_filter.mpr ⟨hq, by simpa using hqne⟩
    · intro s hs hsne
      exact List.mem_filter.mpr ⟨hs, by simpa using hsne⟩

/-- Witness for claim C7 at the sample store, whose single solution
references the deleted problem. -/
theorem delete_problem_cascade_witness :
    findProblem sampleDB 1 = some sampleProblem ∧
    ((findProblem sampleDB 1 = none →
       deleteProblem 1 sampleDB =
         Except.error (ApiError.notFound "Problem not found")) ∧
     (∀ P, findProblem sampleDB 1 = some P →
       ∃ db2, deleteProblem 1 sampleDB = Except.ok db2 ∧
         (∀ q ∈ db2.problems, q.id ≠ 1) ∧
         (∀ s ∈ db2.solutions, s.problem ≠ 1) ∧
         (∀ q ∈ db2.problems, q ∈ sampleDB.problems) ∧
         (∀ s ∈ db2.solutions, s ∈ sampleDB.solutions) ∧
         (∀ q ∈ sampleDB.problems, q.id ≠ 1 → q ∈ db2.problems) ∧
         (∀ s ∈ sampleDB.solutions, s.problem ≠ 1 → s ∈ db2.solutions))) :=
  ⟨rfl, delete_problem_cascade sampleDB 1⟩

/-- Claim C8 (code bug): `PUT /api/problems/:id` merges the request body
with `Object.assign(problem, req.body)` and enforces no per-field
allow-list, so an authorized caller (here the admin) who supplies a
`reportedBy` field overwrites the supposedly immutable owner reference:
on the sample problem (reported by user 2) the update body
`{reportedBy: 99}` yields a saved document whose `reportedBy` is 99. -/
theorem update_overwrites_reportedBy :
    updateProblem sampleAdmin { reportedBy := some 99 } sampleProblem =
      Except.ok { sampleProblem with reportedBy := 99 } ∧
    sampleProblem.reportedBy = 2 ∧ (99 : Nat) ≠ 2 :=
  ⟨rfl, rfl, by decide⟩

theorem length_filter_partition (l : List Problem) :
    (l.filter (fun p => p.status == "resolved")).length +
      (l.filter (fun p => !(p.status == "resolved"))).length = l.length :=
  (@List.length_eq_length_filter_add Problem l (fun p => p.status == "resolved")).symm

/-- Claim C9: in the admin stats response, `solvedProblems` (count of
problems with status `resolved`) plus `unsolvedProblems` (count with
status not `resolved`) always equals `totalProblems` — the two Mongo
count queries partition the problems collection. -/
theorem stats_partition (users : List User) (db : DB)
    (posts : List ForumPost) :
    (getStats users db posts).solvedProblems +
      (getStats users db posts).unsolvedProblems =
      (getStats users db posts).totalProblems :=
  length_filter_partition db.problems

end VillageConnect
